import Mathlib

/-!
Verification development for the translation backend.

The definitions below are a shallow embedding of the Python sources:
`backend/app/services.py` (batching, retry, response parsing),
`backend/app/models.py` (request/response validation) and
`backend/app/main.py` (endpoint handlers).  Strings are modelled as Lean
`String` (a structure over `List Char`), machine calls to the upstream
model (`model.generate_content` / `json.loads`) are taken as function
parameters, and Python exceptions are modelled with `Except String`.
JSON numbers are modelled as rationals.
-/

namespace TranslationForFree

/-! ### Whitespace and Python `str.strip` -/

/-- Whitespace characters recognised by Python's `str.strip()` and the
regex class in the fence-stripping substitutions (ASCII subset). -/
def isPyWhitespace (c : Char) : Bool :=
  c = ' ' || c = '\t' || c = '\n' || c = '\r' || c = '\x0b' || c = '\x0c'

/-- Model of Python `str.strip()` on the character list: drop leading and
trailing whitespace. -/
def pyStrip (l : List Char) : List Char :=
  (((l.dropWhile isPyWhitespace).reverse).dropWhile isPyWhitespace).reverse

/-- Model of Python `str.strip()` at `String` level. -/
def pyStripStr (s : String) : String :=
  ⟨pyStrip s.data⟩

/-! ### Markdown fence stripping (`services.py` lines 202-206, duplicated at
299-305 and 376-382) -/

/-- Effect of `re.sub(r"^БТБТБТ(?:json)?\s*\n?", "", cleaned)` where БТБТБТ is a
triple backtick: remove one leading fence marker, an optional `json` tag
and the following whitespace run (the greedy `\s*` subsumes the `\n?`). -/
def stripLeadingFence (s : List Char) : List Char :=
  if s.take 3 = "```".data then
    let r1 := s.drop 3
    let r2 := if r1.take 4 = "json".data then r1.drop 4 else r1
    r2.dropWhile isPyWhitespace
  else s

/-- Effect of `re.sub(r"\n?БТБТБТ\s*$", "", cleaned)` (БТБТБТ a triple backtick):
remove one trailing fence marker together with the whitespace run after it
and one optional newline before it. -/
def stripTrailingFence (s : List Char) : List Char :=
  let r := s.reverse.dropWhile isPyWhitespace
  if r.take 3 = "```".data then
    let r2 := r.drop 3
    let r3 := if r2.take 1 = ['\n'] then r2.drop 1 else r2
    r3.reverse
  else s

/-- Cleaning pipeline shared by all three `_parse_response` functions:
strip, remove leading fence, remove trailing fence, strip again. -/
def cleanChars (l : List Char) : List Char :=
  pyStrip (stripTrailingFence (stripLeadingFence (pyStrip l)))

/-- The cleaned text handed to `json.loads` by `_parse_response`. -/
def cleanResponse (response_text : String) : String :=
  ⟨cleanChars response_text.data⟩

/-! ### JSON values and the shape checks of the three parsers -/

/-- JSON values as decoded by `json.loads` (numbers as rationals, objects
as association lists). -/
inductive Json where
  | null : Json
  | bool : Bool → Json
  | num : ℚ → Json
  | str : String → Json
  | arr : List Json → Json
  | obj : List (String × Json) → Json

/-- Membership test modelling Python's `"key" in parsed` on a decoded
JSON object. -/
def hasKey (kvs : List (String × Json)) (k : String) : Bool :=
  kvs.any (fun kv => kv.1 == k)

/-- Shape check of `SubtitleTranslationService._parse_response` (lines
208-211): the decoded value must be a JSON array. -/
def subtitleShapeCheck : Json → Except String (List Json)
  | Json.arr xs => Except.ok xs
  | _ => Except.error "Response is not a JSON array"

/-- Shape check of `LanguageDetectionService._parse_response` (lines
307-310): a JSON object containing the keys `language` and `confidence`. -/
def detectionShapeCheck : Json → Except String (List (String × Json))
  | Json.obj kvs =>
    if hasKey kvs "language" && hasKey kvs "confidence" then Except.ok kvs
    else Except.error "Response must be a JSON object with 'language' and 'confidence' keys"
  | _ => Except.error "Response must be a JSON object with 'language' and 'confidence' keys"

/-- Shape check of `TransliterationService._parse_response` (lines
384-387): a JSON object containing the keys `result` and `source_script`. -/
def transliterationShapeCheck : Json → Except String (List (String × Json))
  | Json.obj kvs =>
    if hasKey kvs "result" && hasKey kvs "source_script" then Except.ok kvs
    else Except.error "Response must be a JSON object with 'result' and 'source_script' keys"
  | _ => Except.error "Response must be a JSON object with 'result' and 'source_script' keys"

/-- Boolean success test on an `Except` outcome. -/
def isOkE : Except ε α → Bool
  | Except.ok _ => true
  | Except.error _ => false

/-- Full `SubtitleTranslationService._parse_response`, with `json.loads`
abstracted as the `decode` parameter (`none` models `JSONDecodeError`). -/
def parseResponseSubtitle (decode : String → Option Json) (response_text : String) :
    Except String (List Json) :=
  match decode (cleanResponse response_text) with
  | none => Except.error "JSON decode error"
  | some j => subtitleShapeCheck j

/-- Full `LanguageDetectionService._parse_response` with `json.loads`
abstracted. -/
def parseResponseDetection (decode : String → Option Json) (response_text : String) :
    Except String (List (String × Json)) :=
  match decode (cleanResponse response_text) with
  | none => Except.error "JSON decode error"
  | some j => detectionShapeCheck j

/-- Full `TransliterationService._parse_response` with `json.loads`
abstracted. -/
def parseResponseTransliteration (decode : String → Option Json) (response_text : String) :
    Except String (List (String × Json)) :=
  match decode (cleanResponse response_text) with
  | none => Except.error "JSON decode error"
  | some j => transliterationShapeCheck j

/-! ### Subtitle cue data model (`models.py`) -/

/-- A subtitle cue as in `models.SubtitleCue`; the model declares no
validators, so both fields are accepted exactly as sent. -/
structure SubtitleCue where
  id : String
  text : String
deriving DecidableEq

/-- A translated cue as in `models.TranslatedCue`. -/
structure TranslatedCue where
  id : String
  text : String
  translated_text : String
deriving DecidableEq

/-! ### Batch construction and per-batch translation (`services.py`) -/

/-- Batch partitioning from `translate_subtitles` line 111:
`[cues[i : i + batch_size] for i in range(0, len(cues), batch_size)]`.
`range(0, n, bs)` enumerates `i*bs` for `i < ceil(n/bs)`, and the slice
`cues[i : i+bs]` is `(drop i).take bs`.  Faithful for `batch_size ≥ 1`,
the range enforced by the request model. -/
def chunkList (batch_size : Nat) (l : List α) : List (List α) :=
  (List.range ((l.length + batch_size - 1) / batch_size)).map
    (fun i => (l.drop (i * batch_size)).take batch_size)

/-- Loop body of `_translate_batch` lines 172-178: for each cue at
position `idx` (Python `enumerate`), use `translated_texts[idx]` when
`idx < len(translated_texts)` and otherwise fall back to the cue's own
text. -/
def translateBatchGo (translated_texts : List String) : Nat → List SubtitleCue → List TranslatedCue
  | _, [] => []
  | idx, cue :: rest =>
    ⟨cue.id, cue.text,
      if idx < translated_texts.length then translated_texts.getD idx cue.text
      else cue.text⟩ ::
    translateBatchGo translated_texts (idx + 1) rest

/-- Result-assembly part of `_translate_batch` (lines 171-178), applied to
the parsed string array obtained for this batch. -/
def translateBatch (cues : List SubtitleCue) (translated_texts : List String) :
    List TranslatedCue :=
  translateBatchGo translated_texts 0 cues

/-- Sequential batch loop of `translate_subtitles` lines 119-126.
`respond i batch` abstracts the retry-wrapped model call plus response
parsing for batch `i`: it yields the parsed string array or the raised
error.  A raised error propagates out of the loop, discarding the
already-accumulated cues. -/
def translateBatches (respond : Nat → List SubtitleCue → Except String (List String)) :
    Nat → List (List SubtitleCue) → Except String (List TranslatedCue)
  | _, [] => Except.ok []
  | batch_idx, batch :: rest =>
    match respond batch_idx batch with
    | Except.error e => Except.error e
    | Except.ok ts =>
      match translateBatches respond (batch_idx + 1) rest with
      | Except.error e => Except.error e
      | Except.ok more => Except.ok (translateBatch batch ts ++ more)

/-- `SubtitleTranslationService.translate_subtitles` (lines 103-126):
split into batches, process strictly in order, concatenate. -/
def translateSubtitles (respond : Nat → List SubtitleCue → Except String (List String))
    (cues : List SubtitleCue) (batch_size : Nat) : Except String (List TranslatedCue) :=
  translateBatches respond 0 (chunkList batch_size cues)

/-! ### Retry controller (`_translate_batch_with_retry`, lines 128-153) -/

/-- Non-retryable classification at line 150:
`"API key" in str(e) or "quota" in str(e)`. -/
def containsSub (needle : List Char) : List Char → Bool
  | [] => needle.isEmpty
  | h :: hs => needle.isPrefixOf (h :: hs) || containsSub needle hs

/-- Message-content test that aborts the retry loop (line 150). -/
def isNonRetryableMsg (msg : String) : Bool :=
  containsSub "API key".data msg.data || containsSub "quota".data msg.data

/-- Retry loop of `_translate_batch_with_retry`.  `attemptFn k` is the
outcome of the `k`-th (0-indexed) call of `_translate_batch`;
the result records the returned/raised value, the number of attempts
actually performed, and the list of back-off sleeps (in seconds, in
order).  Before the `k`-th attempt with `k > 0` the loop sleeps `2^k`
seconds; a non-retryable error re-raises immediately; when attempts are
exhausted the last error is raised (line 153). -/
def retryGo (attemptFn : Nat → Except String α) :
    Nat → Nat → Option String → Except String α × Nat × List Nat
  | _, 0, last_error =>
    (Except.error (last_error.getD "Translation failed after retries"), 0, [])
  | attempt, remaining + 1, _ =>
    match attemptFn attempt with
    | Except.ok v => (Except.ok v, 1, if attempt > 0 then [2 ^ attempt] else [])
    | Except.error e =>
      if isNonRetryableMsg e then
        (Except.error e, 1, if attempt > 0 then [2 ^ attempt] else [])
      else
        match retryGo attemptFn (attempt + 1) remaining (some e) with
        | (res, n, sleeps) =>
          (res, n + 1, (if attempt > 0 then [2 ^ attempt] else []) ++ sleeps)

/-- `SubtitleTranslationService.MAX_RETRIES`. -/
def MAX_RETRIES : Nat := 3

/-- `_translate_batch_with_retry` over an abstract per-attempt outcome. -/
def translateBatchWithRetry (attemptFn : Nat → Except String α) :
    Except String α × Nat × List Nat :=
  retryGo attemptFn 0 MAX_RETRIES none

/-! ### Endpoint `/translate/subtitle` (`main.py` lines 100-123) -/

/-- Response model `models.SubtitleTranslationResponse`. -/
structure SubtitleTranslationResponse where
  success : Bool
  translated_cues : List TranslatedCue
  error_message : Option String
deriving DecidableEq

/-- Handler `translate_subtitles` in `main.py`: a successful pipeline run
returns the cues with `success=True`; any raised error is caught and
turned into `{success: False, error_message}` with the default empty
`translated_cues`. -/
def translateSubtitlesEndpoint (respond : Nat → List SubtitleCue → Except String (List String))
    (cues : List SubtitleCue) (batch_size : Nat) : SubtitleTranslationResponse :=
  match translateSubtitles respond cues batch_size with
  | Except.ok tcs => ⟨true, tcs, none⟩
  | Except.error e => ⟨false, [], some e⟩

/-! ### Request validation (`models.py`) -/

/-- Shared body of the pydantic field validators
(`if not v.strip(): raise ValueError(msg); return v.strip()`). -/
def validateNonEmptyStripped (v : String) (msg : String) : Except String String :=
  if pyStripStr v = "" then Except.error msg else Except.ok (pyStripStr v)

/-- Request model `models.TextTranslationRequest`: `text` has
`min_length=1, max_length=5000` plus a strip-and-reject validator,
`target_language` has a strip-and-reject validator, and
`source_language` has no validator at all. -/
structure TextTranslationRequest where
  text : String
  source_language : String
  target_language : String
deriving DecidableEq

/-- Construction (pydantic validation) of `TextTranslationRequest`. -/
def mkTextTranslationRequest (text source_language target_language : String) :
    Except String TextTranslationRequest :=
  if text.length < 1 then Except.error "ensure this value has at least 1 characters"
  else if text.length > 5000 then Except.error "ensure this value has at most 5000 characters"
  else
    match validateNonEmptyStripped text "Text cannot be empty or only whitespace" with
    | Except.error e => Except.error e
    | Except.ok t =>
      match validateNonEmptyStripped target_language "Target language cannot be empty" with
      | Except.error e => Except.error e
      | Except.ok tl => Except.ok ⟨t, source_language, tl⟩

/-- Request model `models.SubtitleTranslationRequest`: `cues` must be
non-empty and `batch_size` in `[1,100]`; the language fields and the cue
fields carry no validators. -/
structure SubtitleTranslationRequest where
  cues : List SubtitleCue
  source_language : String
  target_language : String
  batch_size : Nat
deriving DecidableEq

/-- Construction (pydantic validation) of `SubtitleTranslationRequest`. -/
def mkSubtitleTranslationRequest (cues : List SubtitleCue)
    (source_language target_language : String) (batch_size : Nat) :
    Except String SubtitleTranslationRequest :=
  if cues.length < 1 then Except.error "ensure this value has at least 1 items"
  else if batch_size < 1 then Except.error "ensure this value is greater than or equal to 1"
  else if batch_size > 100 then Except.error "ensure this value is less than or equal to 100"
  else Except.ok ⟨cues, source_language, target_language, batch_size⟩

/-! ### Language detection (`services.py` 260-310, `main.py` 159-181) -/

/-- Response model `models.LanguageDetectionResponse`; `confidence`
carries the pydantic constraint `ge=0, le=1`. -/
structure LanguageDetectionResponse where
  success : Bool
  detected_language : Option String
  confidence : Option ℚ
  error_message : Option String
deriving DecidableEq

/-- Construction (pydantic validation) of `LanguageDetectionResponse`:
a present `confidence` outside `[0,1]` makes validation fail. -/
def mkLanguageDetectionResponse (success : Bool) (detected_language : Option String)
    (confidence : Option ℚ) (error_message : Option String) :
    Except String LanguageDetectionResponse :=
  match confidence with
  | none => Except.ok ⟨success, detected_language, none, error_message⟩
  | some c =>
    if 0 ≤ c ∧ c ≤ 1 then Except.ok ⟨success, detected_language, some c, error_message⟩
    else Except.error "ensure this value is less than or equal to 1"

/-- Handler `detect_language` in `main.py` applied to the tuple returned
by `LanguageDetectionService.detect` (which passes the parsed confidence
through unchanged).  Building the response model happens inside the
`try`, so a validation failure is caught and converted into the
`success=False` response of the `except` branch. -/
def detectLanguageEndpoint (svc : Bool × Option String × Option ℚ × Option String) :
    LanguageDetectionResponse :=
  match mkLanguageDetectionResponse svc.1 svc.2.1 svc.2.2.1 svc.2.2.2 with
  | Except.ok r => r
  | Except.error e => ⟨false, none, none, some e⟩

/-! ### Transliteration (`services.py` 313-387, `main.py` 184-216) -/

/-- `TransliterationService.transliterate` (lines 361-374) given the
outcome of parse (`result`, `source_script` values): success returns the
two parsed strings, any raised error is caught and reported. -/
def transliterateService (parseOutcome : Except String (String × String)) :
    Bool × Option String × Option String × Option String :=
  match parseOutcome with
  | Except.ok rd => (true, some rd.1, some rd.2, none)
  | Except.error e => (false, none, none, some ("Transliteration failed: " ++ e))

/-- Python truthiness fallback `detected or fallback` on an optional
string: `None` and `""` are falsy. -/
def pyOrElse (detected : Option String) (fallback : String) : String :=
  match detected with
  | none => fallback
  | some s => if s = "" then fallback else s

/-- Response shape of `/transliterate`.  Modelled from the spec:
`models.TransliterationRequest`/`TransliterationResponse` are imported by
`main.py` but absent from the sources; spec section 6 gives the response
as `{success, transliterated_text?, source_script, target_script,
error_message?}`. -/
structure TransliterationResponse where
  success : Bool
  transliterated_text : Option String
  source_script : String
  target_script : String
  error_message : Option String
deriving DecidableEq

/-- Handler `transliterate_text` in `main.py` (lines 193-207): the
response's `source_script` is `source_script or request.source_script`
where the first is the service's detected script. -/
def transliterateEndpoint (svc : Bool × Option String × Option String × Option String)
    (req_source_script req_target_script : String) : TransliterationResponse :=
  ⟨svc.1, svc.2.1, pyOrElse svc.2.2.1 req_source_script, req_target_script, svc.2.2.2⟩

/-! ### Helper lemmas about the batch builder -/

theorem translateBatchGo_length (ts : List String) :
    ∀ (idx : Nat) (l : List SubtitleCue), (translateBatchGo ts idx l).length = l.length := by
  intro idx l
  induction l generalizing idx with
  | nil => simp [translateBatchGo]
  | cons c rest ih => simp [translateBatchGo, ih]

theorem translateBatchGo_map_id (ts : List String) :
    ∀ (idx : Nat) (l : List SubtitleCue),
      (translateBatchGo ts idx l).map (fun c => c.id) = l.map (fun c => c.id) := by
  intro idx l
  induction l generalizing idx with
  | nil => simp [translateBatchGo]
  | cons c rest ih => simp [translateBatchGo, ih]

theorem translateBatchGo_map_text (ts : List String) :
    ∀ (idx : Nat) (l : List SubtitleCue),
      (translateBatchGo ts idx l).map (fun c => c.text) = l.map (fun c => c.text) := by
  intro idx l
  induction l generalizing idx with
  | nil => simp [translateBatchGo]
  | cons c rest ih => simp [translateBatchGo, ih]

theorem translateBatchGo_getElem? (ts : List String) :
    ∀ (l : List SubtitleCue) (idx i : Nat),
      (translateBatchGo ts idx l)[i]? =
        (l[i]?).map (fun cue =>
          (⟨cue.id, cue.text,
            if idx + i < ts.length then ts.getD (idx + i) cue.text else cue.text⟩ :
            TranslatedCue)) := by
  intro l
  induction l with
  | nil => intro idx i; simp [translateBatchGo]
  | cons c rest ih =>
    intro idx i
    cases i with
    | zero => simp [translateBatchGo]
    | succ i =>
      have harith : idx + 1 + i = idx + (i + 1) := by omega
      simp [translateBatchGo, ih (idx + 1) i, harith]

theorem translateBatchGo_take (ts : List String) :
    ∀ (l : List SubtitleCue) (idx : Nat),
      translateBatchGo ts idx l = translateBatchGo (ts.take (idx + l.length)) idx l := by
  intro l
  induction l with
  | nil => intro idx; simp [translateBatchGo]
  | cons c rest ih =>
    intro idx
    simp only [translateBatchGo, List.length_cons]
    have hidxlt : idx < idx + (rest.length + 1) := by omega
    have hhead :
        (if idx < ts.length then ts.getD idx c.text else c.text) =
          (if idx < (ts.take (idx + (rest.length + 1))).length then
            (ts.take (idx + (rest.length + 1))).getD idx c.text else c.text) := by
      by_cases h : idx < ts.length
      · have hcond : idx < (ts.take (idx + (rest.length + 1))).length := by
          simp [List.length_take]; omega
        rw [if_pos h, if_pos hcond]
        simp [List.getD_eq_getElem?_getD, List.getElem?_take_of_lt hidxlt]
      · have hcond : ¬ idx < (ts.take (idx + (rest.length + 1))).length := by
          simp [List.length_take]; omega
        rw [if_neg h, if_neg hcond]
    have htail :
        translateBatchGo ts (idx + 1) rest =
          translateBatchGo (ts.take (idx + (rest.length + 1))) (idx + 1) rest := by
      rw [ih (idx + 1)]
      have : idx + 1 + rest.length = idx + (rest.length + 1) := by omega
      rw [this]
    rw [hhead, htail]

theorem translateBatch_length (b : List SubtitleCue) (ts : List String) :
    (translateBatch b ts).length = b.length :=
  translateBatchGo_length ts 0 b

theorem translateBatch_map_id (b : List SubtitleCue) (ts : List String) :
    (translateBatch b ts).map (fun c => c.id) = b.map (fun c => c.id) :=
  translateBatchGo_map_id ts 0 b

theorem translateBatch_map_text (b : List SubtitleCue) (ts : List String) :
    (translateBatch b ts).map (fun c => c.text) = b.map (fun c => c.text) :=
  translateBatchGo_map_text ts 0 b

/-! ### Helper lemmas about the batch partition -/

theorem chunkList_nil (bs : Nat) (hbs : 1 ≤ bs) : chunkList bs ([] : List α) = [] := by
  have h : (0 + bs - 1) / bs = 0 := Nat.div_eq_of_lt (by omega)
  simp only [chunkList, List.length_nil, h, List.range_zero, List.map_nil]

theorem chunkList_cons (bs : Nat) (hbs : 1 ≤ bs) (l : List α) (hl : l ≠ []) :
    chunkList bs l = l.take bs :: chunkList bs (l.drop bs) := by
  have hlen : 1 ≤ l.length := List.length_pos.mpr hl
  unfold chunkList
  have hcount : (l.length + bs - 1) / bs = ((l.drop bs).length + bs - 1) / bs + 1 := by
    rw [List.length_drop]
    rcases le_or_lt l.length bs with h | h
    · have h1 : l.length - bs = 0 := by omega
      have h2 : (0 + bs - 1) / bs = 0 := Nat.div_eq_of_lt (by omega)
      have h3 : (l.length + bs - 1) / bs = 1 := by
        apply Nat.div_eq_of_lt_le <;> omega
      rw [h1, h2, h3]
    · have h1 : l.length + bs - 1 = (l.length - 1 - bs + bs) + bs := by omega
      have h2 : l.length - bs + bs - 1 = (l.length - 1 - bs) + bs := by omega
      rw [h1, h2, Nat.add_div_right _ (by omega), Nat.add_div_right _ (by omega)]
  rw [hcount, List.range_succ_eq_map]
  simp only [List.map_cons, Nat.zero_mul, List.drop_zero, List.map_map]
  congr 1
  apply List.map_congr_left
  intro i _
  simp only [Function.comp_apply, Nat.succ_eq_add_one, List.drop_drop]
  have : (i + 1) * bs = bs + i * bs := by ring
  rw [this]

theorem chunkList_flatten_aux (bs : Nat) (hbs : 1 ≤ bs) :
    ∀ (n : Nat) (l : List α), l.length ≤ n → (chunkList bs l).flatten = l := by
  intro n
  induction n with
  | zero =>
    intro l h
    have hl : l = [] := by
      cases l with
      | nil => rfl
      | cons a as => simp at h
    rw [hl, chunkList_nil bs hbs]
    rfl
  | succ n ih =>
    intro l h
    rcases eq_or_ne l [] with rfl | hl
    · rw [chunkList_nil bs hbs]; rfl
    · have hlen : 1 ≤ l.length := List.length_pos.mpr hl
      rw [chunkList_cons bs hbs l hl]
      simp only [List.flatten_cons]
      rw [ih (l.drop bs) (by rw [List.length_drop]; omega)]
      exact List.take_append_drop bs l

theorem chunkList_flatten (bs : Nat) (hbs : 1 ≤ bs) (l : List α) :
    (chunkList bs l).flatten = l :=
  chunkList_flatten_aux bs hbs l.length l le_rfl

/-! ### Helper lemmas about the sequential batch loop -/

theorem translateBatches_ok_spec
    (respond : Nat → List SubtitleCue → Except String (List String)) :
    ∀ (bl : List (List SubtitleCue)) (k : Nat) (out : List TranslatedCue),
      translateBatches respond k bl = Except.ok out →
      out.map (fun c => c.id) = bl.flatten.map (fun c => c.id) ∧
      out.map (fun c => c.text) = bl.flatten.map (fun c => c.text) ∧
      out.length = bl.flatten.length := by
  intro bl
  induction bl with
  | nil =>
    intro k out h
    simp only [translateBatches] at h
    cases h
    simp
  | cons b rest ih =>
    intro k out h
    simp only [translateBatches] at h
    rcases hr : respond k b with e | ts <;> rw [hr] at h
    · cases h
    · rcases hrec : translateBatches respond (k + 1) rest with e | more <;> rw [hrec] at h
      · cases h
      · cases h
        obtain ⟨h1, h2, h3⟩ := ih (k + 1) more hrec
        refine ⟨?_, ?_, ?_⟩
        · simp [List.flatten_cons, List.map_append, translateBatch_map_id, h1]
        · simp [List.flatten_cons, List.map_append, translateBatch_map_text, h2]
        · simp [List.flatten_cons, translateBatch_length, h3]

theorem translateBatches_error_of_batch_error
    (respond : Nat → List SubtitleCue → Except String (List String)) :
    ∀ (bl : List (List SubtitleCue)) (k j : Nat) (e : String),
      j < bl.length → respond (k + j) (bl.getD j []) = Except.error e →
      ∃ e2, translateBatches respond k bl = Except.error e2 := by
  intro bl
  induction bl with
  | nil => intro k j e hj _; simp at hj
  | cons b rest ih =>
    intro k j e hj hresp
    cases j with
    | zero =>
      refine ⟨e, ?_⟩
      simp only [List.getD_cons_zero, Nat.add_zero] at hresp
      simp [translateBatches, hresp]
    | succ j' =>
      have hj' : j' < rest.length := by simpa using hj
      have harith : k + (j' + 1) = (k + 1) + j' := by omega
      have hresp' : respond ((k + 1) + j') (rest.getD j' []) = Except.error e := by
        rw [← harith]
        simpa [List.getD_cons_succ] using hresp
      obtain ⟨e2, he2⟩ := ih (k + 1) j' e hj' hresp'
      rcases hr : respond k b with e3 | ts
      · exact ⟨e3, by simp [translateBatches, hr]⟩
      · exact ⟨e2, by simp [translateBatches, hr, he2]⟩

/-- C1: for every non-empty cue list and every batch size in [1,100], a
successful run of `translate_subtitles` returns one `TranslatedCue` per
input cue, carrying the input ids and texts in the original order. -/
theorem spec_c1_translate_subtitles_preserves_cues :
    ∀ (respond : Nat → List SubtitleCue → Except String (List String))
      (cues : List SubtitleCue) (batch_size : Nat) (out : List TranslatedCue),
      cues ≠ [] → 1 ≤ batch_size → batch_size ≤ 100 →
      translateSubtitles respond cues batch_size = Except.ok out →
      out.length = cues.length ∧
      out.map (fun c => c.id) = cues.map (fun c => c.id) ∧
      out.map (fun c => c.text) = cues.map (fun c => c.text) := by
  intro respond cues bs out hne h1 h100 h
  obtain ⟨hid, htext, hlen⟩ := translateBatches_ok_spec respond (chunkList bs cues) 0 out h
  rw [chunkList_flatten bs h1 cues] at hid htext hlen
  exact ⟨hlen, hid, htext⟩

theorem spec_c1_witness :
    (([⟨"1", "Hello"⟩, ⟨"2", "World"⟩] : List SubtitleCue) ≠ [] ∧ 1 ≤ 25 ∧ 25 ≤ 100 ∧
      translateSubtitles (fun _ _ => Except.ok ["Hola", "Mundo"])
          [⟨"1", "Hello"⟩, ⟨"2", "World"⟩] 25 =
        Except.ok [⟨"1", "Hello", "Hola"⟩, ⟨"2", "World", "Mundo"⟩]) ∧
    (([⟨"1", "Hello", "Hola"⟩, ⟨"2", "World", "Mundo"⟩] : List TranslatedCue).length =
        ([⟨"1", "Hello"⟩, ⟨"2", "World"⟩] : List SubtitleCue).length ∧
      ([⟨"1", "Hello", "Hola"⟩, ⟨"2", "World", "Mundo"⟩] : List TranslatedCue).map
          (fun c => c.id) =
        ([⟨"1", "Hello"⟩, ⟨"2", "World"⟩] : List SubtitleCue).map (fun c => c.id) ∧
      ([⟨"1", "Hello", "Hola"⟩, ⟨"2", "World", "Mundo"⟩] : List TranslatedCue).map
          (fun c => c.text) =
        ([⟨"1", "Hello"⟩, ⟨"2", "World"⟩] : List SubtitleCue).map (fun c => c.text)) :=
  ⟨⟨by decide, by norm_num, by norm_num, rfl⟩,
    spec_c1_translate_subtitles_preserves_cues
      (fun _ _ => Except.ok ["Hola", "Mundo"]) [⟨"1", "Hello"⟩, ⟨"2", "World"⟩] 25
      [⟨"1", "Hello", "Hola"⟩, ⟨"2", "World", "Mundo"⟩]
      (by decide) (by norm_num) (by norm_num) rfl⟩

/-- C2: a parsed array shorter than the batch does not fail the batch —
every cue at an index beyond the parsed array keeps its own text as the
translation — and entries beyond the batch length are ignored. -/
theorem spec_c2_short_and_long_parsed_arrays :
    ∀ (cues : List SubtitleCue) (ts : List String),
      (translateBatch cues ts).length = cues.length ∧
      (∀ i, i < cues.length → ts.length ≤ i →
        ((translateBatch cues ts).getD i ⟨"", "", ""⟩).translated_text =
          (cues.getD i ⟨"", ""⟩).text) ∧
      translateBatch cues ts = translateBatch cues (ts.take cues.length) := by
  intro cues ts
  refine ⟨translateBatch_length cues ts, ?_, ?_⟩
  · intro i hi hts
    have hcue : cues[i]? = some (cues.get ⟨i, hi⟩) := by
      simp [List.getElem?_eq_getElem hi]
    have hcond : ¬ 0 + i < ts.length := by omega
    have h := translateBatchGo_getElem? ts cues 0 i
    rw [hcue] at h
    simp only [Option.map_some, if_neg hcond] at h
    simp [translateBatch, List.getD_eq_getElem?_getD, h, hcue]
  · have h := translateBatchGo_take ts cues 0
    rw [Nat.zero_add] at h
    exact h

theorem spec_c2_witness :
    ((1 : Nat) < ([⟨"1", "Hello"⟩, ⟨"2", "World"⟩] : List SubtitleCue).length ∧
      (["Hola"] : List String).length ≤ 1) ∧
    ((translateBatch [⟨"1", "Hello"⟩, ⟨"2", "World"⟩] ["Hola"]).getD 1
        ⟨"", "", ""⟩).translated_text =
      (([⟨"1", "Hello"⟩, ⟨"2", "World"⟩] : List SubtitleCue).getD 1 ⟨"", ""⟩).text :=
  ⟨⟨by norm_num, by norm_num⟩,
    (spec_c2_short_and_long_parsed_arrays [⟨"1", "Hello"⟩, ⟨"2", "World"⟩] ["Hola"]).2.1
      1 (by norm_num) (by norm_num)⟩

/-- C7: if any batch's call fails, the whole request fails: the endpoint
response has `success = false`, an error message, and no translated cues
— results of previously completed batches are discarded. -/
theorem spec_c7_batch_failure_discards_all :
    ∀ (respond : Nat → List SubtitleCue → Except String (List String))
      (cues : List SubtitleCue) (batch_size j : Nat) (e : String),
      j < (chunkList batch_size cues).length →
      respond j ((chunkList batch_size cues).getD j []) = Except.error e →
      (translateSubtitlesEndpoint respond cues batch_size).success = false ∧
      (translateSubtitlesEndpoint respond cues batch_size).translated_cues = [] ∧
      (translateSubtitlesEndpoint respond cues batch_size).error_message.isSome = true := by
  intro respond cues bs j e hj hresp
  obtain ⟨e2, he2⟩ :=
    translateBatches_error_of_batch_error respond (chunkList bs cues) 0 j e hj
      (by simpa using hresp)
  simp [translateSubtitlesEndpoint, translateSubtitles, he2]

theorem spec_c7_witness :
    ((0 : Nat) < (chunkList 25 [(⟨"1", "Hello"⟩ : SubtitleCue)]).length ∧
      (fun (_ : Nat) (_ : List SubtitleCue) =>
          (Except.error "quota exceeded" : Except String (List String))) 0
          ((chunkList 25 [(⟨"1", "Hello"⟩ : SubtitleCue)]).getD 0 []) =
        Except.error "quota exceeded") ∧
    (translateSubtitlesEndpoint
        (fun _ _ => Except.error "quota exceeded") [⟨"1", "Hello"⟩] 25).success = false ∧
    (translateSubtitlesEndpoint
        (fun _ _ => Except.error "quota exceeded") [⟨"1", "Hello"⟩] 25).translated_cues = [] ∧
    (translateSubtitlesEndpoint
        (fun _ _ => Except.error "quota exceeded")
        [⟨"1", "Hello"⟩] 25).error_message.isSome = true :=
  ⟨⟨by decide, rfl⟩,
    spec_c7_batch_failure_discards_all (fun _ _ => Except.error "quota exceeded")
      [⟨"1", "Hello"⟩] 25 0 "quota exceeded" (by decide) rfl⟩

/-! ### Helper lemmas about the retry loop -/

theorem retryGo_zero {α : Type} (f : Nat → Except String α) (attempt : Nat)
    (le : Option String) :
    retryGo f attempt 0 le =
      (Except.error (le.getD "Translation failed after retries"), 0, []) := by
  simp [retryGo]

theorem retryGo_succ_error {α : Type} (f : Nat → Except String α)
    (attempt remaining : Nat) (le : Option String) (e : String)
    (hf : f attempt = Except.error e) (hnr : isNonRetryableMsg e = false)
    (res : Except String α) (n : Nat) (sleeps : List Nat)
    (h : retryGo f (attempt + 1) remaining (some e) = (res, n, sleeps)) :
    retryGo f attempt (remaining + 1) le =
      (res, n + 1, (if attempt > 0 then [2 ^ attempt] else []) ++ sleeps) := by
  simp [retryGo, hf, hnr, h]

/-- C3: with `MAX_RETRIES = 3` and a retryable error on every attempt,
the retry wrapper performs exactly 3 attempts, sleeps exactly twice (2
then 4 time units, before attempts 2 and 3), and raises the error of the
final attempt. -/
theorem spec_c3_retry_exhaustion_three_attempts :
    ∀ {α : Type} (f : Nat → Except String α) (errs : Nat → String),
      (∀ k, k < MAX_RETRIES → f k = Except.error (errs k)) →
      (∀ k, k < MAX_RETRIES → isNonRetryableMsg (errs k) = false) →
      translateBatchWithRetry f = (Except.error (errs 2), 3, [2, 4]) := by
  intro α f errs hfail hnr
  have h0 := hfail 0 (by norm_num [MAX_RETRIES])
  have h1 := hfail 1 (by norm_num [MAX_RETRIES])
  have h2 := hfail 2 (by norm_num [MAX_RETRIES])
  have n0 := hnr 0 (by norm_num [MAX_RETRIES])
  have n1 := hnr 1 (by norm_num [MAX_RETRIES])
  have n2 := hnr 2 (by norm_num [MAX_RETRIES])
  have s3 : retryGo f 3 0 (some (errs 2)) = (Except.error (errs 2), 0, []) :=
    retryGo_zero f 3 (some (errs 2))
  have s2 : retryGo f 2 1 (some (errs 1)) = (Except.error (errs 2), 1, [4]) := by
    have := retryGo_succ_error f 2 0 (some (errs 1)) (errs 2) h2 n2 _ _ _ s3
    simpa using this
  have s1 : retryGo f 1 2 (some (errs 0)) = (Except.error (errs 2), 2, [2, 4]) := by
    have := retryGo_succ_error f 1 1 (some (errs 0)) (errs 1) h1 n1 _ _ _ s2
    simpa using this
  have s0 : retryGo f 0 3 none = (Except.error (errs 2), 3, [2, 4]) := by
    have := retryGo_succ_error f 0 2 none (errs 0) h0 n0 _ _ _ s1
    simpa using this
  simpa [translateBatchWithRetry, MAX_RETRIES] using s0

theorem spec_c3_witness :
    translateBatchWithRetry
        (fun _ : Nat => (Except.error "HTTP 500 from upstream" :
          Except String (List TranslatedCue))) =
      (Except.error "HTTP 500 from upstream", 3, [2, 4]) :=
  spec_c3_retry_exhaustion_three_attempts
    (fun _ => Except.error "HTTP 500 from upstream") (fun _ => "HTTP 500 from upstream")
    (fun _ _ => rfl) (fun _ _ => rfl)

/-- C4: an error whose message contains an authentication or quota
marker is re-raised immediately after the first attempt — one attempt,
no sleeps — whatever the configured maximum number of attempts is. -/
theorem spec_c4_non_retryable_stops_immediately :
    ∀ {α : Type} (f : Nat → Except String α) (e : String) (maxAttempts : Nat),
      1 ≤ maxAttempts → f 0 = Except.error e → isNonRetryableMsg e = true →
      retryGo f 0 maxAttempts none = (Except.error e, 1, []) := by
  intro α f e m hm hf hnr
  obtain ⟨r, rfl⟩ : ∃ r, m = r + 1 := ⟨m - 1, by omega⟩
  simp [retryGo, hf, hnr]

theorem spec_c4_witness :
    (1 ≤ 5 ∧ isNonRetryableMsg "Gemini quota exhausted" = true) ∧
    retryGo
        (fun _ : Nat => (Except.error "Gemini quota exhausted" :
          Except String (List TranslatedCue))) 0 5 none =
      (Except.error "Gemini quota exhausted", 1, []) :=
  ⟨⟨by norm_num, rfl⟩,
    spec_c4_non_retryable_stops_immediately
      (fun _ => Except.error "Gemini quota exhausted") "Gemini quota exhausted" 5
      (by norm_num) rfl rfl⟩

/-- C6: on a cleaned response that decodes to JSON, the batch parser
succeeds exactly on arrays and the detection/transliteration parsers
succeed exactly on objects carrying their required keys; every other
decoded shape is a loud parse error. -/
theorem spec_c6_wrong_shape_fails :
    ∀ (decode : String → Option Json) (raw : String) (j : Json),
      decode (cleanResponse raw) = some j →
      (isOkE (parseResponseSubtitle decode raw) = true ↔ ∃ xs, j = Json.arr xs) ∧
      (isOkE (parseResponseDetection decode raw) = true ↔
        ∃ kvs, j = Json.obj kvs ∧ hasKey kvs "language" = true ∧
          hasKey kvs "confidence" = true) ∧
      (isOkE (parseResponseTransliteration decode raw) = true ↔
        ∃ kvs, j = Json.obj kvs ∧ hasKey kvs "result" = true ∧
          hasKey kvs "source_script" = true) := by
  intro decode raw j h
  refine ⟨?_, ?_, ?_⟩
  · simp only [parseResponseSubtitle, h]
    cases j <;> simp [subtitleShapeCheck, isOkE]
  · simp only [parseResponseDetection, h]
    cases j with
    | obj kvs =>
      by_cases h1 : hasKey kvs "language" = true <;>
        by_cases h2 : hasKey kvs "confidence" = true <;>
        simp [detectionShapeCheck, isOkE, h1, h2]
    | null => simp [detectionShapeCheck, isOkE]
    | bool b => simp [detectionShapeCheck, isOkE]
    | num q => simp [detectionShapeCheck, isOkE]
    | str s => simp [detectionShapeCheck, isOkE]
    | arr xs => simp [detectionShapeCheck, isOkE]
  · simp only [parseResponseTransliteration, h]
    cases j with
    | obj kvs =>
      by_cases h1 : hasKey kvs "result" = true <;>
        by_cases h2 : hasKey kvs "source_script" = true <;>
        simp [transliterationShapeCheck, isOkE, h1, h2]
    | null => simp [transliterationShapeCheck, isOkE]
    | bool b => simp [transliterationShapeCheck, isOkE]
    | num q => simp [transliterationShapeCheck, isOkE]
    | str s => simp [transliterationShapeCheck, isOkE]
    | arr xs => simp [transliterationShapeCheck, isOkE]

theorem spec_c6_witness :
    ((fun _ : String => some (Json.obj [("language", Json.str "French")]))
        (cleanResponse "x") = some (Json.obj [("language", Json.str "French")])) ∧
    (isOkE (parseResponseSubtitle
        (fun _ => some (Json.obj [("language", Json.str "French")])) "x") = true ↔
      ∃ xs, Json.obj [("language", Json.str "French")] = Json.arr xs) ∧
    (isOkE (parseResponseDetection
        (fun _ => some (Json.obj [("language", Json.str "French")])) "x") = true ↔
      ∃ kvs, Json.obj [("language", Json.str "French")] = Json.obj kvs ∧
        hasKey kvs "language" = true ∧ hasKey kvs "confidence" = true) ∧
    (isOkE (parseResponseTransliteration
        (fun _ => some (Json.obj [("language", Json.str "French")])) "x") = true ↔
      ∃ kvs, Json.obj [("language", Json.str "French")] = Json.obj kvs ∧
        hasKey kvs "result" = true ∧ hasKey kvs "source_script" = true) :=
  ⟨rfl, spec_c6_wrong_shape_fails
    (fun _ => some (Json.obj [("language", Json.str "French")])) "x"
    (Json.obj [("language", Json.str "French")]) rfl⟩

/-- C8 counterexample: the subtitle request model accepts a
whitespace-only cue text and an untrimmed whitespace-only language
unchanged, and the text-translation model accepts an untrimmed
`source_language`; the claim that all string fields of every endpoint
are trimmed and rejected-when-empty is false on the code. -/
theorem spec_c8_counterexample :
    mkSubtitleTranslationRequest [⟨"1", "   "⟩] " " "Spanish" 25 =
      Except.ok ⟨[⟨"1", "   "⟩], " ", "Spanish", 25⟩ ∧
    pyStripStr "   " = "" ∧ pyStripStr " " = "" ∧
    mkTextTranslationRequest "Hello" "  " "Spanish" =
      Except.ok ⟨"Hello", "  ", "Spanish"⟩ :=
  ⟨rfl, rfl, rfl, rfl⟩

/-- C8 amended: the fields that do carry validators (`text` and
languages of `TranslationRequest`, `text`/`target_language` of
`TextTranslationRequest`, `text` of `LanguageDetectionRequest`) are
trimmed and rejected when empty after trimming, while the subtitle
request's cue fields and languages and `TextTranslationRequest.source_language`
pass through without trimming or rejection. -/
theorem spec_c8_amended_validators :
    ∀ (v msg : String) (cues : List SubtitleCue) (sl tl : String) (bs : Nat)
      (req : SubtitleTranslationRequest) (t sl2 tgt : String)
      (r : TextTranslationRequest),
      (pyStripStr v = "" → validateNonEmptyStripped v msg = Except.error msg) ∧
      (pyStripStr v ≠ "" → validateNonEmptyStripped v msg = Except.ok (pyStripStr v)) ∧
      (mkSubtitleTranslationRequest cues sl tl bs = Except.ok req →
        req.cues = cues ∧ req.source_language = sl ∧ req.target_language = tl) ∧
      (mkTextTranslationRequest t sl2 tgt = Except.ok r →
        r.text = pyStripStr t ∧ r.source_language = sl2 ∧
          r.target_language = pyStripStr tgt) := by
  intro v msg cues sl tl bs req t sl2 tgt r
  refine ⟨?_, ?_, ?_, ?_⟩
  · intro h; simp [validateNonEmptyStripped, h]
  · intro h; simp [validateNonEmptyStripped, h]
  · intro h
    by_cases hc : cues.length < 1
    · simp [mkSubtitleTranslationRequest, hc] at h
    · by_cases hb1 : bs < 1
      · simp [mkSubtitleTranslationRequest, hc, hb1] at h
      · by_cases hb2 : bs > 100
        · simp [mkSubtitleTranslationRequest, hc, hb1, hb2] at h
        · simp only [mkSubtitleTranslationRequest, if_neg hc, if_neg hb1, if_neg hb2,
            Except.ok.injEq] at h
          subst h
          exact ⟨rfl, rfl, rfl⟩
  · intro h
    by_cases hl1 : t.length < 1
    · simp [mkTextTranslationRequest, hl1] at h
    · by_cases hl2 : t.length > 5000
      · simp [mkTextTranslationRequest, hl1, hl2] at h
      · by_cases he1 : pyStripStr t = ""
        · simp [mkTextTranslationRequest, validateNonEmptyStripped, hl1, hl2, he1] at h
        · by_cases he2 : pyStripStr tgt = ""
          · simp [mkTextTranslationRequest, validateNonEmptyStripped, hl1, hl2,
              he1, he2] at h
          · simp only [mkTextTranslationRequest, validateNonEmptyStripped,
              if_neg hl1, if_neg hl2, if_neg he1, if_neg he2, Except.ok.injEq] at h
            subst h
            exact ⟨rfl, rfl, rfl⟩

theorem spec_c8_amended_witness :
    validateNonEmptyStripped "   " "m1" = Except.error "m1" ∧
    validateNonEmptyStripped " Hi " "m1" = Except.ok (pyStripStr " Hi ") ∧
    ((⟨[⟨"1", "   "⟩], " ", "Spanish", 25⟩ : SubtitleTranslationRequest).cues =
        [⟨"1", "   "⟩] ∧
      (⟨[⟨"1", "   "⟩], " ", "Spanish", 25⟩ :
        SubtitleTranslationRequest).source_language = " " ∧
      (⟨[⟨"1", "   "⟩], " ", "Spanish", 25⟩ :
        SubtitleTranslationRequest).target_language = "Spanish") ∧
    ((⟨"Hello", "  ", "Spanish"⟩ : TextTranslationRequest).text = pyStripStr "Hello" ∧
      (⟨"Hello", "  ", "Spanish"⟩ : TextTranslationRequest).source_language = "  " ∧
      (⟨"Hello", "  ", "Spanish"⟩ : TextTranslationRequest).target_language =
        pyStripStr "Spanish") :=
  ⟨(spec_c8_amended_validators "   " "m1" [] "" "" 0 ⟨[], "", "", 0⟩ "" "" ""
      ⟨"", "", ""⟩).1 rfl,
    (spec_c8_amended_validators " Hi " "m1" [] "" "" 0 ⟨[], "", "", 0⟩ "" "" ""
      ⟨"", "", ""⟩).2.1 (by decide),
    (spec_c8_amended_validators "" "" [⟨"1", "   "⟩] " " "Spanish" 25
      ⟨[⟨"1", "   "⟩], " ", "Spanish", 25⟩ "" "" "" ⟨"", "", ""⟩).2.2.1 rfl,
    (spec_c8_amended_validators "" "" [] "" "" 0 ⟨[], "", "", 0⟩ "Hello" "  " "Spanish"
      ⟨"Hello", "  ", "Spanish"⟩).2.2.2 rfl⟩

/-- C9 counterexample: a detection result with confidence 3/2 does not
pass through to the client — the response model's `ge=0, le=1`
constraint fails inside the handler's `try`, so the endpoint answers
`success = false` with no confidence value at all. -/
theorem spec_c9_counterexample :
    (detectLanguageEndpoint (true, some "French", some ((3 : ℚ) / 2), none)).success =
      false ∧
    (detectLanguageEndpoint (true, some "French", some ((3 : ℚ) / 2), none)).confidence =
      none ∧
    (detectLanguageEndpoint
      (true, some "French", some ((3 : ℚ) / 2), none)).confidence ≠ some ((3 : ℚ) / 2) := by
  have hout : ¬((0 : ℚ) ≤ 3 / 2 ∧ (3 : ℚ) / 2 ≤ 1) := by norm_num
  refine ⟨?_, ?_, ?_⟩ <;>
    simp [detectLanguageEndpoint, mkLanguageDetectionResponse, hout]

/-- C9 amended: the detection service itself performs no range check;
the response schema constrains confidence to [0,1], so an in-range
confidence passes through exactly as returned while an out-of-range one
makes response validation fail and the endpoint reports
`success = false` with an error message and no confidence. -/
theorem spec_c9_amended_confidence_range :
    ∀ (s : Bool) (dl : Option String) (c : ℚ) (em : Option String),
      (0 ≤ c ∧ c ≤ 1 →
        detectLanguageEndpoint (s, dl, some c, em) = ⟨s, dl, some c, em⟩) ∧
      (¬(0 ≤ c ∧ c ≤ 1) →
        (detectLanguageEndpoint (s, dl, some c, em)).success = false ∧
        (detectLanguageEndpoint (s, dl, some c, em)).confidence = none ∧
        (detectLanguageEndpoint (s, dl, some c, em)).error_message.isSome = true) := by
  intro s dl c em
  constructor
  · intro h
    simp [detectLanguageEndpoint, mkLanguageDetectionResponse, h]
  · intro h
    refine ⟨?_, ?_, ?_⟩ <;>
      simp [detectLanguageEndpoint, mkLanguageDetectionResponse, h]

theorem spec_c9_witness :
    ((0 : ℚ) ≤ 97 / 100 ∧ (97 : ℚ) / 100 ≤ 1) ∧
    detectLanguageEndpoint (true, some "French", some ((97 : ℚ) / 100), none) =
      ⟨true, some "French", some ((97 : ℚ) / 100), none⟩ :=
  ⟨by norm_num,
    (spec_c9_amended_confidence_range true (some "French") ((97 : ℚ) / 100) none).1
      (by norm_num)⟩

/-- C10: the `/transliterate` response's `source_script` falls back to
the request's value when the service fails (detected script is `None`);
on success it is the detected script unless that string is empty, in
which case the request's value is used. -/
theorem spec_c10_source_script_fallback :
    ∀ (parseOutcome : Except String (String × String)) (req_ss req_ts : String),
      (∀ e, parseOutcome = Except.error e →
        (transliterateEndpoint (transliterateService parseOutcome) req_ss req_ts).success =
          false ∧
        (transliterateEndpoint (transliterateService parseOutcome) req_ss
          req_ts).source_script = req_ss) ∧
      (∀ r d, parseOutcome = Except.ok (r, d) →
        (transliterateEndpoint (transliterateService parseOutcome) req_ss req_ts).success =
          true ∧
        (transliterateEndpoint (transliterateService parseOutcome) req_ss
          req_ts).source_script = (if d = "" then req_ss else d)) := by
  intro po rs rt
  constructor
  · intro e he
    subst he
    exact ⟨rfl, rfl⟩
  · intro r d hrd
    subst hrd
    exact ⟨rfl, rfl⟩

theorem spec_c10_witness :
    ((Except.error "parse failed" : Except String (String × String)) =
        Except.error "parse failed" ∧
      (transliterateEndpoint
        (transliterateService (Except.error "parse failed")) "Latin" "Telugu").success =
        false ∧
      (transliterateEndpoint (transliterateService (Except.error "parse failed"))
        "Latin" "Telugu").source_script = "Latin") ∧
    ((Except.ok ("namaste", "Devanagari") : Except String (String × String)) =
        Except.ok ("namaste", "Devanagari") ∧
      (transliterateEndpoint (transliterateService (Except.ok ("namaste", "Devanagari")))
        "Latin" "Telugu").source_script = "Devanagari") ∧
    ((Except.ok ("namaste", "") : Except String (String × String)) =
        Except.ok ("namaste", "") ∧
      (transliterateEndpoint (transliterateService (Except.ok ("namaste", "")))
        "Latin" "Telugu").source_script = "Latin") := by
  refine ⟨⟨rfl, ?_, ?_⟩, ⟨rfl, ?_⟩, ⟨rfl, ?_⟩⟩
  · exact ((spec_c10_source_script_fallback (Except.error "parse failed") "Latin"
      "Telugu").1 "parse failed" rfl).1
  · exact ((spec_c10_source_script_fallback (Except.error "parse failed") "Latin"
      "Telugu").1 "parse failed" rfl).2
  · have := ((spec_c10_source_script_fallback (Except.ok ("namaste", "Devanagari"))
      "Latin" "Telugu").2 "namaste" "Devanagari" rfl).2
    simpa using this
  · have := ((spec_c10_source_script_fallback (Except.ok ("namaste", ""))
      "Latin" "Telugu").2 "namaste" "" rfl).2
    simpa using this

/-! ### Helper lemmas about whitespace stripping and fence stripping -/

theorem dropWhile_append_of_forall {p : α → Bool} {l₁ l₂ : List α}
    (h : l₁.dropWhile p = []) :
    (l₁ ++ l₂).dropWhile p = l₂.dropWhile p := by
  rw [List.dropWhile_append, h]
  simp

theorem dropWhile_append_of_ne_nil {p : α → Bool} {l₁ l₂ : List α} {c : α} {cs : List α}
    (h : l₁.dropWhile p = c :: cs) :
    (l₁ ++ l₂).dropWhile p = (c :: cs) ++ l₂ := by
  rw [List.dropWhile_append, h]
  simp

theorem dropWhile_head_false {p : α → Bool} :
    ∀ {l : List α} {c : α} {cs : List α}, l.dropWhile p = c :: cs → p c = false := by
  intro l
  induction l with
  | nil => intro c cs h; simp at h
  | cons a as ih =>
    intro c cs h
    by_cases hp : p a = true
    · rw [List.dropWhile_cons_of_pos hp] at h
      exact ih h
    · rw [List.dropWhile_cons_of_neg hp] at h
      cases h
      simpa using hp

theorem pyStrip_dropWhile (l : List Char) :
    pyStrip (l.dropWhile isPyWhitespace) = pyStrip l := by
  unfold pyStrip
  rw [List.dropWhile_idempotent]

theorem dropWhile_reverse_pyStrip (l : List Char) :
    (pyStrip l).reverse.dropWhile isPyWhitespace = (pyStrip l).reverse := by
  unfold pyStrip
  rw [List.reverse_reverse, List.dropWhile_idempotent]

theorem dropWhile_pyStrip (l : List Char) :
    (pyStrip l).dropWhile isPyWhitespace = pyStrip l := by
  rcases hdp : l.dropWhile isPyWhitespace with _ | ⟨c, cs⟩
  · have h0 : pyStrip l = [] := by simp [pyStrip, hdp]
    rw [h0]
    rfl
  · have hc : isPyWhitespace c = false := dropWhile_head_false hdp
    have hps : pyStrip l = ((c :: cs).reverse.dropWhile isPyWhitespace).reverse := by
      simp [pyStrip, hdp]
    rw [hps, List.reverse_cons]
    rcases h2 : cs.reverse.dropWhile isPyWhitespace with _ | ⟨d, ds⟩
    · rw [dropWhile_append_of_forall h2]
      have h3 : List.dropWhile isPyWhitespace [c] = [c] :=
        List.dropWhile_cons_of_neg (by simp [hc])
      rw [h3]
      simpa using h3
    · rw [dropWhile_append_of_ne_nil h2, List.reverse_append]
      rw [show ([c] : List Char).reverse = [c] from rfl, List.singleton_append]
      exact List.dropWhile_cons_of_neg (by simp [hc])

theorem pyStrip_idem (l : List Char) : pyStrip (pyStrip l) = pyStrip l := by
  show (((pyStrip l).dropWhile isPyWhitespace).reverse.dropWhile isPyWhitespace).reverse =
    pyStrip l
  rw [dropWhile_pyStrip l, dropWhile_reverse_pyStrip l, List.reverse_reverse]

theorem stripTrailingFence_append_fence (X : List Char) :
    stripTrailingFence (X ++ "\n```".data) = X := by
  simp only [stripTrailingFence]
  rw [List.reverse_append]
  rw [show ("\n```".data).reverse = "```\n".data from by decide]
  rw [show ∀ R : List Char,
      List.dropWhile isPyWhitespace ("```\n".data ++ R) = "```\n".data ++ R
    from fun R => rfl]
  rw [show ∀ R : List Char, ("```\n".data ++ R).take 3 = "```".data from fun R => rfl]
  rw [if_pos rfl]
  rw [show ∀ R : List Char, ("```\n".data ++ R).drop 3 = '\n' :: R from fun R => rfl]
  rw [show ∀ R : List Char, ('\n' :: R).take 1 = ['\n'] from fun R => rfl]
  rw [if_pos rfl]
  rw [show ∀ R : List Char, ('\n' :: R).drop 1 = R from fun R => rfl]
  exact List.reverse_reverse X

theorem stripLeadingFence_json_append (X : List Char) :
    stripLeadingFence ("```json\n".data ++ X) = List.dropWhile isPyWhitespace X := by
  simp only [stripLeadingFence]
  rw [show ∀ R : List Char, ("```json\n".data ++ R).take 3 = "```".data from fun R => rfl]
  rw [if_pos rfl]
  rw [show ∀ R : List Char,
      ("```json\n".data ++ R).drop 3 = "json\n".data ++ R from fun R => rfl]
  rw [show ∀ R : List Char, ("json\n".data ++ R).take 4 = "json".data from fun R => rfl]
  rw [if_pos rfl]
  rw [show ∀ R : List Char, ("json\n".data ++ R).drop 4 = '\n' :: R from fun R => rfl]
  rw [show ∀ R : List Char,
      List.dropWhile isPyWhitespace ('\n' :: R) = List.dropWhile isPyWhitespace R
    from fun R => rfl]

theorem stripLeadingFence_plain_append (X : List Char) :
    stripLeadingFence ("```\n".data ++ X) = List.dropWhile isPyWhitespace X := by
  simp only [stripLeadingFence]
  rw [show ∀ R : List Char, ("```\n".data ++ R).take 3 = "```".data from fun R => rfl]
  rw [if_pos rfl]
  rw [show ∀ R : List Char, ("```\n".data ++ R).drop 3 = '\n' :: R from fun R => rfl]
  have hcond : ('\n' :: X).take 4 ≠ "json".data := by
    intro hcontra
    rw [show ('\n' :: X).take 4 = '\n' :: X.take 3 from rfl] at hcontra
    rw [show ("json".data : List Char) = 'j' :: "son".data from rfl] at hcontra
    have : '\n' = 'j' := by injection hcontra
    exact absurd this (by decide)
  rw [if_neg hcond]
  rw [show ∀ R : List Char,
      List.dropWhile isPyWhitespace ('\n' :: R) = List.dropWhile isPyWhitespace R
    from fun R => rfl]

theorem pyStrip_wrap_json (p : List Char) :
    pyStrip ("```json\n".data ++ p ++ "\n```".data) =
      "```json\n".data ++ p ++ "\n```".data := by
  unfold pyStrip
  rw [List.append_assoc]
  rw [show ∀ R : List Char,
      List.dropWhile isPyWhitespace ("```json\n".data ++ R) = "```json\n".data ++ R
    from fun R => rfl]
  rw [List.reverse_append, List.reverse_append]
  rw [show ("\n```".data).reverse = "```\n".data from by decide]
  rw [List.append_assoc]
  rw [show ∀ R : List Char,
      List.dropWhile isPyWhitespace ("```\n".data ++ R) = "```\n".data ++ R
    from fun R => rfl]
  rw [List.reverse_append, List.reverse_append, List.reverse_reverse, List.reverse_reverse]
  rw [show ("```\n".data).reverse = "\n```".data from by decide]
  rw [List.append_assoc]

theorem pyStrip_wrap_plain (p : List Char) :
    pyStrip ("```\n".data ++ p ++ "\n```".data) = "```\n".data ++ p ++ "\n```".data := by
  unfold pyStrip
  rw [List.append_assoc]
  rw [show ∀ R : List Char,
      List.dropWhile isPyWhitespace ("```\n".data ++ R) = "```\n".data ++ R
    from fun R => rfl]
  rw [List.reverse_append, List.reverse_append]
  rw [show ("\n```".data).reverse = "```\n".data from by decide]
  rw [List.append_assoc]
  rw [show ∀ R : List Char,
      List.dropWhile isPyWhitespace ("```\n".data ++ R) = "```\n".data ++ R
    from fun R => rfl]
  rw [List.reverse_append, List.reverse_append, List.reverse_reverse, List.reverse_reverse]
  rw [show ("```\n".data).reverse = "\n```".data from by decide]
  rw [List.append_assoc]

theorem pyStrip_stripTrailing_dropWhile_fence (p : List Char) :
    pyStrip (stripTrailingFence
      (List.dropWhile isPyWhitespace (p ++ "\n```".data))) = pyStrip p := by
  rcases hdp : List.dropWhile isPyWhitespace p with _ | ⟨c, cs⟩
  · rw [dropWhile_append_of_forall hdp]
    rw [show List.dropWhile isPyWhitespace ("\n```".data) = "```".data from by decide]
    rw [show stripTrailingFence ("```".data) = [] from by decide]
    simp [pyStrip, hdp]
  · rw [dropWhile_append_of_ne_nil hdp]
    rw [stripTrailingFence_append_fence (c :: cs)]
    rw [← hdp]
    exact pyStrip_dropWhile p

theorem cleanChars_wrap_json (p : List Char) :
    cleanChars ("```json\n".data ++ p ++ "\n```".data) = pyStrip p := by
  unfold cleanChars
  rw [pyStrip_wrap_json, List.append_assoc, stripLeadingFence_json_append]
  exact pyStrip_stripTrailing_dropWhile_fence p

theorem cleanChars_wrap_plain (p : List Char) :
    cleanChars ("```\n".data ++ p ++ "\n```".data) = pyStrip p := by
  unfold cleanChars
  rw [pyStrip_wrap_plain, List.append_assoc, stripLeadingFence_plain_append]
  exact pyStrip_stripTrailing_dropWhile_fence p

theorem cleanChars_no_fence (p : List Char)
    (h1 : (pyStrip p).take 3 ≠ "```".data)
    (h2 : (pyStrip p).reverse.take 3 ≠ "```".data) :
    cleanChars p = pyStrip p := by
  unfold cleanChars
  have hl : stripLeadingFence (pyStrip p) = pyStrip p := by
    simp only [stripLeadingFence]
    rw [if_neg h1]
  rw [hl]
  have ht : stripTrailingFence (pyStrip p) = pyStrip p := by
    simp only [stripTrailingFence]
    rw [dropWhile_reverse_pyStrip p, if_neg h2]
  rw [ht]
  exact pyStrip_idem p

/-- C5: wrapping a payload whose stripped form does not itself begin or
end with a fence marker in markdown fences (with or without the `json`
language tag) does not change the cleaned text, hence not the parse
result either: exactly one leading and one trailing fence token are
stripped, with whitespace trimmed before and after. -/
theorem spec_c5_fence_stripping_invariance :
    ∀ (p : String) (decode : String → Option Json),
      (pyStrip p.data).take 3 ≠ "```".data →
      (pyStrip p.data).reverse.take 3 ≠ "```".data →
      cleanResponse ("```json\n" ++ p ++ "\n```") = cleanResponse p ∧
      cleanResponse ("```\n" ++ p ++ "\n```") = cleanResponse p ∧
      parseResponseSubtitle decode ("```json\n" ++ p ++ "\n```") =
        parseResponseSubtitle decode p := by
  intro p decode h1 h2
  have hdata1 : ("```json\n" ++ p ++ "\n```").data =
      "```json\n".data ++ p.data ++ "\n```".data := by
    simp
  have hdata2 : ("```\n" ++ p ++ "\n```").data =
      "```\n".data ++ p.data ++ "\n```".data := by
    simp
  have e1 : cleanResponse ("```json\n" ++ p ++ "\n```") = ⟨pyStrip p.data⟩ :=
    congrArg String.mk (by rw [hdata1]; exact cleanChars_wrap_json p.data)
  have e2 : cleanResponse ("```\n" ++ p ++ "\n```") = ⟨pyStrip p.data⟩ :=
    congrArg String.mk (by rw [hdata2]; exact cleanChars_wrap_plain p.data)
  have e0 : cleanResponse p = ⟨pyStrip p.data⟩ :=
    congrArg String.mk (cleanChars_no_fence p.data h1 h2)
  refine ⟨e1.trans e0.symm, e2.trans e0.symm, ?_⟩
  unfold parseResponseSubtitle
  rw [e1.trans e0.symm]

theorem spec_c5_witness :
    ((pyStrip ("[1, 2]" : String).data).take 3 ≠ "```".data ∧
      (pyStrip ("[1, 2]" : String).data).reverse.take 3 ≠ "```".data) ∧
    cleanResponse ("```json\n" ++ "[1, 2]" ++ "\n```") = cleanResponse "[1, 2]" ∧
    cleanResponse ("```\n" ++ "[1, 2]" ++ "\n```") = cleanResponse "[1, 2]" ∧
    parseResponseSubtitle (fun _ => some (Json.arr [Json.num 1, Json.num 2]))
        ("```json\n" ++ "[1, 2]" ++ "\n```") =
      parseResponseSubtitle (fun _ => some (Json.arr [Json.num 1, Json.num 2]))
        "[1, 2]" :=
  ⟨⟨by decide, by decide⟩,
    spec_c5_fence_stripping_invariance "[1, 2]"
      (fun _ => some (Json.arr [Json.num 1, Json.num 2])) (by decide) (by decide)⟩

end TranslationForFree
